import Mathlib

/-!
Verification development for `scripts/generate_test_plan_html.py`.

The file shallowly embeds the Markdown test-plan parser `parse_markdown`
(lines 16-152 of the source), the result-map construction of
`load_test_results` (lines 155-182), and the result-annotation and summary
counting performed inside `generate_html` (lines 212-223 and 744-756).

Python strings are modelled by Lean `String`; the Python `str` methods used
by the source (`strip`, `startswith`, `replace`, `split('\n')`,
`'\n'.join`) are re-implemented below as structurally recursive functions
over `List Char`, so that every definition evaluates by `rfl`/`decide`.
`\d` of the Python regexes is modelled as an ASCII digit, which is the only
form occurring in the source documents.
-/

namespace TestPlan

/-- Whitespace characters stripped by Python's `str.strip()` (ASCII part). -/
def isPyWS (c : Char) : Bool :=
  c = ' ' || c = '\t' || c = '\n' || c = '\r' || c = '\x0b' || c = '\x0c'

/-- Strip leading and trailing whitespace from a character list. -/
def stripChars (cs : List Char) : List Char :=
  ((cs.dropWhile isPyWS).reverse.dropWhile isPyWS).reverse

/-- Model of Python `s.strip()`. -/
def pyStrip (s : String) : String :=
  String.mk (stripChars s.data)

/-- Model of Python `s.startswith(pre)`. -/
def pyStartsWith (s pre : String) : Bool :=
  pre.data.isPrefixOf s.data

/-- Fuel-driven worker for `pyReplace`; the fuel (initially the length of the
subject) bounds the number of scanning steps, each of which consumes at least
one character when the pattern is nonempty. -/
def replaceAux (pat rep : List Char) : Nat → List Char → List Char
  | _, [] => []
  | 0, cs => cs
  | fuel+1, c :: cs =>
    if pat.isPrefixOf (c :: cs) then rep ++ replaceAux pat rep fuel ((c :: cs).drop pat.length)
    else c :: replaceAux pat rep fuel cs

/-- Model of Python `s.replace(pat, rep)` (all occurrences, left to right,
nonempty pattern; every pattern used by the source is nonempty). -/
def pyReplace (s pat rep : String) : String :=
  String.mk (replaceAux pat.data rep.data s.data.length s.data)

/-- Worker for `pySplitLines`, accumulating the current line reversed. -/
def splitLinesAux : List Char → List Char → List String
  | acc, [] => [String.mk acc.reverse]
  | acc, c :: cs =>
    if c = '\n' then String.mk acc.reverse :: splitLinesAux [] cs
    else splitLinesAux (c :: acc) cs

/-- Model of Python `content.split('\n')` (keeps empty pieces; never empty). -/
def pySplitLines (s : String) : List String :=
  splitLinesAux [] s.data

/-- Model of Python `'\n'.join(lines)`. -/
def pyJoinNl : List String → String
  | [] => ""
  | [s] => s
  | s :: rest => s ++ "\n" ++ pyJoinNl rest

/-- Consume a literal character sequence from the front, returning the rest. -/
def dropLit : List Char → List Char → Option (List Char)
  | [], cs => some cs
  | _ :: _, [] => none
  | p :: ps, c :: cs => if c = p then dropLit ps cs else none

/-- Split off the maximal leading run of ASCII digits (model of greedy `\d+`,
paired with its remainder). -/
def takeDigits (cs : List Char) : List Char × List Char :=
  (cs.takeWhile Char.isDigit, cs.dropWhile Char.isDigit)

/-- Try to read `\d+\.\d+` anchored at the current position, returning the
matched text (the regex capture) on success. -/
def dottedNumHere (cs : List Char) : Option String :=
  match takeDigits cs with
  | ([], _) => none
  | (d1, rest1) =>
    match rest1 with
    | '.' :: rest2 =>
      match takeDigits rest2 with
      | ([], _) => none
      | (d2, _) => some (String.mk (d1 ++ '.' :: d2))
    | _ => none

/-- Leftmost search for `Test (\d+\.\d+)` (the capture extraction of
`re.search(r'Test (\d+\.\d+)', line)` in `parse_markdown`, line 79). -/
def searchTestNum : List Char → Option String
  | [] => none
  | c :: cs =>
    match dropLit "Test ".data (c :: cs) with
    | some r =>
      match dottedNumHere r with
      | some s => some s
      | none => searchTestNum cs
    | none => searchTestNum cs

/-- Leftmost search for `(\d+\.\d+)` (the extraction of
`re.search(r'(\d+\.\d+)', test_id)` in `load_test_results`, line 169). -/
def searchDottedNum : List Char → Option String
  | [] => none
  | c :: cs =>
    match dottedNumHere (c :: cs) with
    | some s => some s
    | none => searchDottedNum cs

/-- Classifier for the three prerequisite heading literals
(`parse_markdown` line 38). -/
def isPrereqHeading (line : String) : Bool :=
  pyStartsWith line "### 1. 环境准备" || pyStartsWith line "### 2. 知识库准备" ||
    pyStartsWith line "### 3. 测试集群准备"

/-- Classifier for `re.match(r'^### Phase \d+:', line)`
(`parse_markdown` lines 53 and 58). -/
def isPhaseHeading (line : String) : Bool :=
  match dropLit "### Phase ".data line.data with
  | none => false
  | some rest =>
    match takeDigits rest with
    | ([], _) => false
    | (_, ':' :: _) => true
    | _ => false

/-- Classifier for `re.match(r'^#### Test \d+\.\d+:', line)`
(`parse_markdown` line 75). -/
def isTestHeading (line : String) : Bool :=
  match dropLit "#### Test ".data line.data with
  | none => false
  | some rest =>
    match takeDigits rest with
    | ([], _) => false
    | (_, '.' :: rest2) =>
      match takeDigits rest2 with
      | ([], _) => false
      | (_, ':' :: _) => true
      | _ => false
    | _ => false

/-- Test-id extraction for a test heading line, with the source's `'0.0'`
fallback (`parse_markdown` lines 79-80). -/
def extract_test_id (line : String) : String :=
  (searchTestNum line.data).getD "0.0"

/-- Checkpoint record: `{'text': ..., 'command': ...}` (line 115). -/
structure Checkpoint where
  text : String
  command : String
deriving Repr, DecidableEq

/-- Test record: `{'id', 'title', 'command', 'checkpoints', 'output_checks'}`
(lines 81-87). `output_checks` is created empty and never filled in this
version of the source. -/
structure Test where
  id : String
  title : String
  command : String
  checkpoints : List Checkpoint
  output_checks : List String
deriving Repr, DecidableEq

/-- Prerequisite record: `{'title', 'command', 'checkpoints'}` (lines 43-47). -/
structure Prerequisite where
  title : String
  command : String
  checkpoints : List Checkpoint
deriving Repr, DecidableEq

/-- Phase record: `{'title', 'description', 'tests'}` (lines 63-67). -/
structure Phase where
  title : String
  description : String
  tests : List Test
deriving Repr, DecidableEq

/-- The mutable scan state of `parse_markdown` (lines 20-31).  In the Python
source `current_prerequisite` aliases the last element of `prerequisites`
(it is appended at creation and mutated in place); here the current
prerequisite is kept outside `prerequisites` and flushed into it exactly when
the source drops the alias (a new prerequisite heading, a phase heading, or
the end of the document), which yields the same list in the same order. -/
structure ScanState where
  prerequisites : List Prerequisite
  current_prerequisite : Option Prerequisite
  phases : List Phase
  current_phase : Option Phase
  current_test : Option Test
  current_section : Option String
  collecting_command : Bool
  command_lines : List String
  in_prerequisite : Bool
deriving Repr, DecidableEq

/-- The state at loop entry (lines 20-31). -/
def initState : ScanState :=
  { prerequisites := []
    current_prerequisite := none
    phases := []
    current_phase := none
    current_test := none
    current_section := none
    collecting_command := false
    command_lines := []
    in_prerequisite := false
  }

/-- Close the current phase into `phases` WITHOUT touching the current test
(the prerequisite-heading branch, lines 39-41: only the phase is appended). -/
def closePhase (s : ScanState) : List Phase :=
  match s.current_phase with
  | some ph => s.phases ++ [ph]
  | none => s.phases

/-- Close the current phase into `phases`, first appending the open test to
its `tests` (the phase-heading branch, lines 59-62, and the end-of-document
push, lines 147-150). -/
def closePhaseWithTest (s : ScanState) : List Phase :=
  match s.current_phase with
  | some ph => s.phases ++ [{ ph with tests := ph.tests ++ s.current_test.toList }]
  | none => s.phases

/-- Flush the aliased current prerequisite into the `prerequisites` list
(see the `ScanState` doc comment). -/
def flushPrereq (s : ScanState) : List Prerequisite :=
  s.prerequisites ++ s.current_prerequisite.toList

/-- Attach a finished checkpoint to the open container
(lines 132-135: prerequisite first, else current test, else dropped). -/
def attachCheckpoint (s : ScanState) (cp : Checkpoint) : ScanState :=
  if s.in_prerequisite && s.current_prerequisite.isSome then
    { s with current_prerequisite :=
        s.current_prerequisite.map (fun p => { p with checkpoints := p.checkpoints ++ [cp] }) }
  else
    match s.current_test with
    | some t => { s with current_test := some { t with checkpoints := t.checkpoints ++ [cp] } }
    | none => s

/-- Assign a closed fence's text as the open container's command
(lines 100-103: prerequisite first, else current test, else dropped). -/
def assignCommand (s : ScanState) (cmd : String) : ScanState :=
  if s.in_prerequisite && s.current_prerequisite.isSome then
    { s with current_prerequisite :=
        s.current_prerequisite.map (fun p => { p with command := cmd }) }
  else
    match s.current_test with
    | some t => { s with current_test := some { t with command := cmd } }
    | none => s

/-- One iteration of the `while i < len(lines)` loop of `parse_markdown`
(lines 34-144), acting on the current line and the list of lines after it.
Returns the updated state and the lines still to be scanned (the branches
that advance `i` by more than one — the goal-line lookahead after a phase
heading, lines 69-71, and the nested checkpoint fence, lines 119-130 —
return a shorter remainder). Branches appear in source order; every Python
branch ends in `continue`, so they translate to an if/else chain. -/
def step (s : ScanState) (line : String) (rest : List String) : ScanState × List String :=
  if isPrereqHeading line then
    ({ s with
        phases := closePhase s
        current_phase := none
        in_prerequisite := true
        prerequisites := flushPrereq s
        current_prerequisite := some { title := pyReplace line "### " "", command := "", checkpoints := [] } },
      rest)
  else if isPhaseHeading line then
    let s1 : ScanState :=
      { s with
          in_prerequisite := false
          prerequisites := flushPrereq s
          current_prerequisite := none
          phases := closePhaseWithTest s }
    let mkPhase : String → ScanState := fun desc =>
      { s1 with current_phase := some { title := pyReplace line "### " "", description := desc, tests := [] } }
    match rest with
    | next :: rest2 =>
      if pyStartsWith next "**目标**:" then
        (mkPhase (pyStrip (pyReplace next "**目标**:" "")), rest2)
      else
        (mkPhase "", rest)
    | [] => (mkPhase "", [])
  else if isTestHeading line then
    (match s.current_phase with
      | some ph =>
        { s with
            current_phase := some { ph with tests := ph.tests ++ s.current_test.toList }
            current_test := some
              { id := extract_test_id line
                title := pyReplace line "#### " ""
                command := ""
                checkpoints := []
                output_checks := [] } }
      | none => s,
      rest)
  else if pyStrip line = "```bash" then
    ({ s with collecting_command := true, command_lines := [] }, rest)
  else if s.collecting_command then
    if pyStrip line = "```" then
      ({ assignCommand s (pyStrip (pyJoinNl s.command_lines)) with
          collecting_command := false
          command_lines := [] },
        rest)
    else
      ({ s with command_lines := s.command_lines ++ [line] }, rest)
  else if pyStartsWith (pyStrip line) "- [ ]" then
    let text := pyStrip (pyReplace line "- [ ]" "")
    match rest with
    | next :: rest2 =>
      if pyStrip next = "```bash" then
        let content := rest2.takeWhile (fun l => pyStrip l ≠ "```")
        (attachCheckpoint s { text := text, command := pyStrip (pyJoinNl content) },
          rest2.drop (content.length + 1))
      else
        (attachCheckpoint s { text := text, command := "" }, rest)
    | [] => (attachCheckpoint s { text := text, command := "" }, [])
  else if pyStrip line = "**检查输出**:" then
    ({ s with current_section := some "output_checks" }, rest)
  else
    (s, rest)

/-- The remainder returned by `step` is always a suffix (a drop) of `rest`:
each loop iteration moves the scan index forward past the current line. -/
theorem step_rest_drop (s : ScanState) (line : String) (rest : List String) :
    ∃ k, (step s line rest).2 = rest.drop k := by
  unfold step
  split
  · exact ⟨0, rfl⟩
  · split
    · rename_i heq
      cases rest with
      | nil => exact ⟨0, by simp_all⟩
      | cons next rest2 =>
        by_cases hg : pyStartsWith next "**目标**:" = true
        · exact ⟨1, by simp_all⟩
        · refine ⟨0, ?_⟩
          simp only [Bool.not_eq_true] at hg
          simp_all
    · split
      · exact ⟨0, rfl⟩
      · split
        · exact ⟨0, rfl⟩
        · split
          · split
            · exact ⟨0, rfl⟩
            · exact ⟨0, rfl⟩
          · split
            · cases rest with
              | nil => exact ⟨0, by simp_all⟩
              | cons next rest2 =>
                by_cases hb : pyStrip next = "```bash"
                · refine ⟨(rest2.takeWhile (fun l => pyStrip l ≠ "```")).length + 2, ?_⟩
                  simp_all [List.drop_succ_cons]
                · refine ⟨0, ?_⟩
                  simp_all
            · split
              · exact ⟨0, rfl⟩
              · exact ⟨0, rfl⟩

/-- Progress bound used for the fuel of the scan loop. -/
theorem step_rest_length (s : ScanState) (line : String) (rest : List String) :
    ((step s line rest).2).length ≤ rest.length := by
  obtain ⟨k, hk⟩ := step_rest_drop s line rest
  simp [hk]

/-- Fuel-driven scan loop. The fuel starts at the number of lines and, by
`step_rest_length`, each iteration consumes at least one line, so the zero
cutoff is never reached on a run started with enough fuel. -/
def scanAux : Nat → ScanState → List String → ScanState
  | _, s, [] => s
  | 0, s, _ :: _ => s
  | fuel+1, s, line :: rest => scanAux fuel (step s line rest).1 (step s line rest).2

/-- The scan loop of `parse_markdown` over the remaining lines. -/
def scan (s : ScanState) (lines : List String) : ScanState :=
  scanAux lines.length s lines

theorem scanAux_congr (f1 : Nat) : ∀ (f2 : Nat) (s : ScanState) (lines : List String),
    lines.length ≤ f1 → lines.length ≤ f2 → scanAux f1 s lines = scanAux f2 s lines := by
  induction f1 with
  | zero =>
    intro f2 s lines h1 _
    cases lines with
    | nil => cases f2 <;> rfl
    | cons l r => simp at h1
  | succ f1' ih =>
    intro f2 s lines h1 h2
    cases lines with
    | nil => cases f2 <;> rfl
    | cons l r =>
      cases f2 with
      | zero => simp at h2
      | succ f2' =>
        show scanAux f1' _ _ = scanAux f2' _ _
        have hb := step_rest_length s l r
        simp only [List.length_cons, Nat.succ_le_succ_iff] at h1 h2
        exact ih f2' _ _ (le_trans hb h1) (le_trans hb h2)

theorem scan_nil (s : ScanState) : scan s [] = s := rfl

theorem scan_cons (s : ScanState) (line : String) (rest : List String) :
    scan s (line :: rest) = scan (step s line rest).1 (step s line rest).2 := by
  show scanAux (rest.length + 1) s (line :: rest) = _
  show scanAux rest.length (step s line rest).1 (step s line rest).2 = _
  exact scanAux_congr _ _ _ _ (step_rest_length s line rest) le_rfl

/-- The trailing push after the loop (lines 146-150) and the return value
(line 152): the still-open test is closed into the still-open phase, the
phase into `phases`, and the aliased current prerequisite is materialised at
its creation position (the end of the list). -/
def finalize (s : ScanState) : List Prerequisite × List Phase :=
  (flushPrereq s, closePhaseWithTest s)

/-- `parse_markdown` on an explicit list of lines. -/
def parse_lines (lines : List String) : List Prerequisite × List Phase :=
  finalize (scan initState lines)

/-- `parse_markdown` (lines 16-152): split the document on newlines and scan. -/
def parse_markdown (content : String) : List Prerequisite × List Phase :=
  parse_lines (pySplitLines content)

/-- One checkpoint entry of the results JSON (`{'text', 'result'}` as read by
`generate_html` lines 751-754). -/
structure CheckpointResult where
  text : String
  result : String
deriving Repr, DecidableEq

/-- One record of the `tests` array of the results JSON.  Each field is
optional, mirroring the `test.get(key, default)` reads of
`load_test_results` (lines 167-176); durations are modelled as rationals
(they are only stored and compared, never computed with). -/
structure ResultRecord where
  id : Option String
  result : Option String
  duration : Option ℚ
  log_file : Option String
  checkpoints : Option (List CheckpointResult)
deriving Repr, DecidableEq

/-- The value stored in `test_results_map` for one test
(`load_test_results` lines 172-177, with the `get` defaults applied). -/
structure MappedResult where
  result : String
  duration : ℚ
  log_file : String
  checkpoints : List CheckpointResult
deriving Repr, DecidableEq

/-- Python `dict` assignment `m[k] = v` on an insertion-ordered association
list: overwrite in place if the key exists, else append. -/
def dictInsert (m : List (String × MappedResult)) (k : String) (v : MappedResult) :
    List (String × MappedResult) :=
  if m.any (fun kv => kv.1 = k) then
    m.map (fun kv => if kv.1 = k then (k, v) else kv)
  else
    m ++ [(k, v)]

/-- Python `m.get(k)` on the association list. -/
def dictGet (m : List (String × MappedResult)) (k : String) : Option MappedResult :=
  (m.find? (fun kv => kv.1 = k)).map Prod.snd

/-- The map-building core of `load_test_results` (lines 164-179): for each
record, extract the dotted test number from the possibly-prefixed id string
and map it to the record's data; records with no dotted number are skipped. -/
def load_test_results (tests : List ResultRecord) : List (String × MappedResult) :=
  tests.foldl
    (fun m t =>
      match searchDottedNum (t.id.getD "").data with
      | some num =>
        dictInsert m num
          { result := t.result.getD "unknown"
            duration := t.duration.getD 0
            log_file := t.log_file.getD ""
            checkpoints := t.checkpoints.getD [] }
      | none => m)
    []

/-- Summary bucket count of `generate_html` (lines 218-221):
the number of mapped results whose `result` equals the given value. -/
def count_result (m : List (String × MappedResult)) (r : String) : Nat :=
  (m.filter (fun kv => kv.2.result = r)).length

/-- A parsed test decorated with its execution annotation, as read off by
`generate_html` (lines 744-749). -/
structure AnnotatedTest where
  test : Test
  result : String
  duration : ℚ
  log_file : String
  checkpoint_results : List CheckpointResult
deriving Repr, DecidableEq

/-- A phase whose tests carry their annotations. -/
structure AnnotatedPhase where
  title : String
  description : String
  tests : List AnnotatedTest
deriving Repr, DecidableEq

/-- The annotation lookup of `generate_html` (lines 744-749):
`test_results.get(test['id'], {})` with the `get` defaults
`'unknown'`, `0`, `''`, `[]` for an absent entry. -/
def annotate_test (m : List (String × MappedResult)) (t : Test) : AnnotatedTest :=
  match dictGet m t.id with
  | some r => { test := t, result := r.result, duration := r.duration,
                log_file := r.log_file, checkpoint_results := r.checkpoints }
  | none => { test := t, result := "unknown", duration := 0, log_file := "",
              checkpoint_results := [] }

/-- The read-only merge pass: decorate every test of every phase with its
annotation (the per-test lookup of `generate_html`, lines 731-756). -/
def merge_results (m : List (String × MappedResult)) (phases : List Phase) :
    List AnnotatedPhase :=
  phases.map (fun ph =>
    { title := ph.title, description := ph.description,
      tests := ph.tests.map (annotate_test m) })

/-- Forget the annotations, recovering the parsed model. -/
def strip_merge (phases : List AnnotatedPhase) : List Phase :=
  phases.map (fun ap =>
    { title := ap.title, description := ap.description,
      tests := ap.tests.map (fun a => a.test) })

/-- The state produced by the phase-heading branch (lines 53-71), with the
description already filled in. -/
def phaseState (s : ScanState) (line : String) (desc : String) : ScanState :=
  { s with
      in_prerequisite := false
      prerequisites := flushPrereq s
      current_prerequisite := none
      phases := closePhaseWithTest s
      current_phase := some { title := pyReplace line "### " "", description := desc, tests := [] } }

theorem step_prereq (s : ScanState) (line : String) (rest : List String)
    (h1 : isPrereqHeading line = true) :
    step s line rest =
      ({ s with
          phases := closePhase s
          current_phase := none
          in_prerequisite := true
          prerequisites := flushPrereq s
          current_prerequisite := some { title := pyReplace line "### " "", command := "", checkpoints := [] } },
        rest) := by
  simp [step, h1]

theorem step_phase_nil (s : ScanState) (line : String)
    (h1 : isPrereqHeading line = false) (h2 : isPhaseHeading line = true) :
    step s line [] = (phaseState s line "", []) := by
  simp [step, h1, h2, phaseState]

theorem step_phase_goal (s : ScanState) (line next : String) (rest2 : List String)
    (h1 : isPrereqHeading line = false) (h2 : isPhaseHeading line = true)
    (hg : pyStartsWith next "**目标**:" = true) :
    step s line (next :: rest2) =
      (phaseState s line (pyStrip (pyReplace next "**目标**:" "")), rest2) := by
  simp [step, h1, h2, hg, phaseState]

theorem step_phase_nogoal (s : ScanState) (line next : String) (rest2 : List String)
    (h1 : isPrereqHeading line = false) (h2 : isPhaseHeading line = true)
    (hg : pyStartsWith next "**目标**:" = false) :
    step s line (next :: rest2) = (phaseState s line "", next :: rest2) := by
  simp [step, h1, h2, hg, phaseState]

theorem step_test_some (s : ScanState) (line : String) (rest : List String) (ph : Phase)
    (h1 : isPrereqHeading line = false) (h2 : isPhaseHeading line = false)
    (h3 : isTestHeading line = true) (hph : s.current_phase = some ph) :
    step s line rest =
      ({ s with
          current_phase := some { ph with tests := ph.tests ++ s.current_test.toList }
          current_test := some
            { id := extract_test_id line
              title := pyReplace line "#### " ""
              command := ""
              checkpoints := []
              output_checks := [] } },
        rest) := by
  simp [step, h1, h2, h3, hph]

theorem step_test_none (s : ScanState) (line : String) (rest : List String)
    (h1 : isPrereqHeading line = false) (h2 : isPhaseHeading line = false)
    (h3 : isTestHeading line = true) (hph : s.current_phase = none) :
    step s line rest = (s, rest) := by
  simp [step, h1, h2, h3, hph]

theorem step_bash (s : ScanState) (line : String) (rest : List String)
    (h1 : isPrereqHeading line = false) (h2 : isPhaseHeading line = false)
    (h3 : isTestHeading line = false) (h4 : pyStrip line = "```bash") :
    step s line rest = ({ s with collecting_command := true, command_lines := [] }, rest) := by
  simp [step, h1, h2, h3, h4]

theorem step_collect_acc (s : ScanState) (line : String) (rest : List String)
    (h1 : isPrereqHeading line = false) (h2 : isPhaseHeading line = false)
    (h3 : isTestHeading line = false) (h4 : pyStrip line ≠ "```bash")
    (h5 : s.collecting_command = true) (h6 : pyStrip line ≠ "```") :
    step s line rest = ({ s with command_lines := s.command_lines ++ [line] }, rest) := by
  simp [step, h1, h2, h3, h4, h5, h6]

theorem step_collect_close (s : ScanState) (line : String) (rest : List String)
    (h1 : isPrereqHeading line = false) (h2 : isPhaseHeading line = false)
    (h3 : isTestHeading line = false) (h4 : pyStrip line ≠ "```bash")
    (h5 : s.collecting_command = true) (h6 : pyStrip line = "```") :
    step s line rest =
      ({ assignCommand s (pyStrip (pyJoinNl s.command_lines)) with
          collecting_command := false
          command_lines := [] },
        rest) := by
  simp [step, h1, h2, h3, h4, h5, h6]

theorem step_checkbox_nil (s : ScanState) (line : String)
    (h1 : isPrereqHeading line = false) (h2 : isPhaseHeading line = false)
    (h3 : isTestHeading line = false) (h4 : pyStrip line ≠ "```bash")
    (h5 : s.collecting_command = false)
    (h6 : pyStartsWith (pyStrip line) "- [ ]" = true) :
    step s line [] =
      (attachCheckpoint s { text := pyStrip (pyReplace line "- [ ]" ""), command := "" }, []) := by
  simp [step, h1, h2, h3, h4, h5, h6]

theorem step_checkbox_nofence (s : ScanState) (line next : String) (rest2 : List String)
    (h1 : isPrereqHeading line = false) (h2 : isPhaseHeading line = false)
    (h3 : isTestHeading line = false) (h4 : pyStrip line ≠ "```bash")
    (h5 : s.collecting_command = false)
    (h6 : pyStartsWith (pyStrip line) "- [ ]" = true)
    (hb : pyStrip next ≠ "```bash") :
    step s line (next :: rest2) =
      (attachCheckpoint s { text := pyStrip (pyReplace line "- [ ]" ""), command := "" },
        next :: rest2) := by
  simp [step, h1, h2, h3, h4, h5, h6, hb]

theorem step_checkbox_fence (s : ScanState) (line next : String) (rest2 : List String)
    (h1 : isPrereqHeading line = false) (h2 : isPhaseHeading line = false)
    (h3 : isTestHeading line = false) (h4 : pyStrip line ≠ "```bash")
    (h5 : s.collecting_command = false)
    (h6 : pyStartsWith (pyStrip line) "- [ ]" = true)
    (hb : pyStrip next = "```bash") :
    step s line (next :: rest2) =
      (attachCheckpoint s
          { text := pyStrip (pyReplace line "- [ ]" "")
            command := pyStrip (pyJoinNl (rest2.takeWhile (fun l => pyStrip l ≠ "```"))) },
        rest2.drop ((rest2.takeWhile (fun l => pyStrip l ≠ "```")).length + 1)) := by
  simp [step, h1, h2, h3, h4, h5, h6, hb]

theorem step_output (s : ScanState) (line : String) (rest : List String)
    (h1 : isPrereqHeading line = false) (h2 : isPhaseHeading line = false)
    (h3 : isTestHeading line = false) (h4 : pyStrip line ≠ "```bash")
    (h5 : s.collecting_command = false)
    (h6 : pyStartsWith (pyStrip line) "- [ ]" = false)
    (h7 : pyStrip line = "**检查输出**:") :
    step s line rest = ({ s with current_section := some "output_checks" }, rest) := by
  rw [h7] at h6
  simp [step, h1, h2, h3, h4, h5, h6, h7]

theorem step_plain (s : ScanState) (line : String) (rest : List String)
    (h1 : isPrereqHeading line = false) (h2 : isPhaseHeading line = false)
    (h3 : isTestHeading line = false) (h4 : pyStrip line ≠ "```bash")
    (h5 : s.collecting_command = false)
    (h6 : pyStartsWith (pyStrip line) "- [ ]" = false)
    (h7 : pyStrip line ≠ "**检查输出**:") :
    step s line rest = (s, rest) := by
  simp [step, h1, h2, h3, h4, h5, h6, h7]

/-- A line that, inside an open fence, is treated as plain fence content:
it matches none of the patterns that the scanner checks before the
accumulation branch (lines 38, 53, 58, 75, 92 of the source) and does not
close the fence. -/
def FenceContentPlain (l : String) : Prop :=
  isPrereqHeading l = false ∧ isPhaseHeading l = false ∧ isTestHeading l = false ∧
    pyStrip l ≠ "```bash" ∧ pyStrip l ≠ "```"

instance (l : String) : Decidable (FenceContentPlain l) := by
  unfold FenceContentPlain
  infer_instance

/-- While a fence is open, plain content lines are accumulated verbatim, in
order, onto `command_lines`, and nothing else in the state changes. -/
theorem scan_collect_plain (content : List String) : ∀ (tail : List String) (s : ScanState),
    s.collecting_command = true → (∀ l ∈ content, FenceContentPlain l) →
    scan s (content ++ tail) =
      scan { s with command_lines := s.command_lines ++ content } tail := by
  induction content with
  | nil =>
    intro tail s _ _
    simp
  | cons l ls ih =>
    intro tail s hc hp
    obtain ⟨p1, p2, p3, p4, p5⟩ := hp l (List.mem_cons_self l ls)
    rw [List.cons_append, scan_cons, step_collect_acc s l (ls ++ tail) p1 p2 p3 p4 hc p5]
    dsimp only
    rw [ih tail { s with command_lines := s.command_lines ++ [l] } hc
      (fun x hx => hp x (List.mem_cons_of_mem l hx))]
    simp

/-- Input exhibiting the stale-`current_test` slip: a test open at a phase
boundary is pushed into the closing phase but the `current_test` variable is
not cleared, so the same test is appended again to the next phase. -/
def c1_input : List String :=
  ["### Phase 1: A", "#### Test 1.1: t", "### Phase 2: B", "#### Test 2.1: u"]

/-- C1: evaluation of the parser at `c1_input`.  The claim says no test
appears in a phase other than the one its heading is under; the code puts
Test 1.1 (whose heading is under Phase 1) into Phase 2's `tests` as well,
because the phase-heading branch (lines 58-67) pushes `current_test` into
the closing phase without resetting it, and the next test heading
(lines 76-78) appends the stale test to the new phase. -/
theorem C1_code_bug_eval :
    (parse_lines c1_input).2.map (fun ph => (ph.title, ph.tests.map Test.id)) =
      [("Phase 1: A", ["1.1"]), ("Phase 2: B", ["1.1", "2.1"])] := by
  decide

/-- Input where a prerequisite heading appears while a phase with an open
test is in progress. -/
def c2_input : List String :=
  ["### Phase 1: A", "#### Test 1.1: t", "### 1. 环境准备"]

/-- C2 counterexample: the claim says the open Test 1.1 is pushed into
Phase 1's `tests` before the new Prerequisite is opened and "ends up in its
own phase"; in fact the prerequisite-heading branch (lines 39-41) pushes the
phase WITHOUT the open test, so no phase contains any test here. -/
theorem C2_counterexample :
    (parse_lines c2_input).2.map Phase.tests = [[]]
    ∧ (parse_lines c2_input).1.map Prerequisite.title = ["1. 环境准备"] := by
  decide

/-- C2 amended: when a prerequisite heading line is encountered outside a
fenced block while a phase with an open test is in progress, the phase is
pushed into the phases list WITHOUT the open test; the open test is neither
pushed nor discarded — it stays the current test — and the new Prerequisite
is opened. -/
theorem C2_amended (s : ScanState) (line : String) (rest : List String) (ph : Phase) (t : Test)
    (hcol : s.collecting_command = false) (hph : s.current_phase = some ph)
    (ht : s.current_test = some t) (h : isPrereqHeading line = true) :
    (step s line rest).1.phases = s.phases ++ [ph]
    ∧ (step s line rest).1.current_test = some t
    ∧ (step s line rest).1.current_phase = none
    ∧ (step s line rest).1.in_prerequisite = true
    ∧ (step s line rest).1.current_prerequisite =
        some { title := pyReplace line "### " "", command := "", checkpoints := [] }
    ∧ (step s line rest).2 = rest := by
  rw [step_prereq s line rest h]
  exact ⟨by simp [closePhase, hph], ht, rfl, rfl, rfl, rfl⟩

/-- Concrete state with an open phase and an open test used by witnesses. -/
def c2_state : ScanState :=
  { prerequisites := []
    current_prerequisite := none
    phases := []
    current_phase := some { title := "Phase 1: A", description := "", tests := [] }
    current_test := some
      { id := "1.1", title := "Test 1.1: t", command := "", checkpoints := [], output_checks := [] }
    current_section := none
    collecting_command := false
    command_lines := []
    in_prerequisite := false }

/-- Witness for `C2_amended` at a concrete state and line. -/
theorem C2_amended_witness :
    (step c2_state "### 1. 环境准备" []).1.phases =
        [{ title := "Phase 1: A", description := "", tests := [] }]
    ∧ (step c2_state "### 1. 环境准备" []).1.current_test =
        some { id := "1.1", title := "Test 1.1: t", command := "", checkpoints := [],
               output_checks := [] }
    ∧ (step c2_state "### 1. 环境准备" []).1.current_phase = none
    ∧ (step c2_state "### 1. 环境准备" []).1.in_prerequisite = true
    ∧ (step c2_state "### 1. 环境准备" []).1.current_prerequisite =
        some { title := pyReplace "### 1. 环境准备" "### " "", command := "", checkpoints := [] }
    ∧ (step c2_state "### 1. 环境准备" []).2 = [] :=
  C2_amended c2_state "### 1. 环境准备" []
    { title := "Phase 1: A", description := "", tests := [] }
    { id := "1.1", title := "Test 1.1: t", command := "", checkpoints := [], output_checks := [] }
    rfl rfl rfl (by decide)

/-- Input with a stray fence-open line inside an open fence: the line 92
check fires before the accumulation branch, so the inner three content lines
are not all kept. -/
def c3_input : List String :=
  ["### 1. 环境准备", "```bash", "a", "```bash", "b", "```"]

/-- C3 counterexample: the stored command is "b", not the join of the lines
strictly between the fence-open and the fence-close markers
("a\n```bash\nb"): a fence-open token inside the fence resets the
accumulator (lines 92-95 run before the `collecting_command` branch), so
accumulation is not verbatim for every content line. -/
theorem C3_counterexample :
    (parse_lines c3_input).1.map Prerequisite.command = ["b"]
    ∧ pyStrip (pyJoinNl ["a", "```bash", "b"]) = "a\n```bash\nb"
    ∧ ("b" : String) ≠ "a\n```bash\nb" := by
  decide

/-- C3 amended: for a fenced command block whose content lines are plain
(none of them is itself a fence-open token or a prerequisite/phase/test
heading — such lines are intercepted by earlier branches), the stored
command equals exactly the lines strictly between the fence markers, joined
with line breaks and stripped, and the accumulation is verbatim for every
such content line.  Both container cases are covered: the prerequisite open
in prerequisite mode, and the current test otherwise. -/
theorem C3_amended (content : List String) (hplain : ∀ l ∈ content, FenceContentPlain l)
    (s : ScanState) (hc : s.collecting_command = true) (hcl : s.command_lines = []) :
    (∀ p, s.in_prerequisite = true → s.current_prerequisite = some p →
      (scan s (content ++ ["```"])).current_prerequisite =
        some { p with command := pyStrip (pyJoinNl content) })
    ∧ (∀ t, s.in_prerequisite = false → s.current_test = some t →
      (scan s (content ++ ["```"])).current_test =
        some { t with command := pyStrip (pyJoinNl content) }) := by
  have key : ∀ (s2 : ScanState), s2.collecting_command = true →
      scan s2 ["```"] =
        { assignCommand s2 (pyStrip (pyJoinNl s2.command_lines)) with
            collecting_command := false
            command_lines := [] } := by
    intro s2 h
    rw [scan_cons,
      step_collect_close s2 "```" [] (by decide) (by decide) (by decide) (by decide) h (by decide),
      scan_nil]
  rw [scan_collect_plain content ["```"] s hc hplain, hcl,
    key { s with command_lines := [] ++ content } hc]
  constructor
  · intro p hpre hsome
    simp [assignCommand, hpre, hsome]
  · intro t hpre hsome
    simp [assignCommand, hpre, hsome]

/-- Concrete collecting state with an open prerequisite used by witnesses. -/
def c3_state : ScanState :=
  { prerequisites := []
    current_prerequisite := some { title := "1. 环境准备", command := "", checkpoints := [] }
    phases := []
    current_phase := none
    current_test := none
    current_section := none
    collecting_command := true
    command_lines := []
    in_prerequisite := true }

/-- Witness for `C3_amended` at a concrete block. -/
theorem C3_amended_witness :
    (scan c3_state (["echo hi"] ++ ["```"])).current_prerequisite =
      some { title := "1. 环境准备", command := pyStrip (pyJoinNl ["echo hi"]),
             checkpoints := [] } :=
  (C3_amended ["echo hi"] (by decide) c3_state rfl rfl).1
    { title := "1. 环境准备", command := "", checkpoints := [] } rfl rfl

theorem dropLit_eq_append : ∀ (pat cs r : List Char), dropLit pat cs = some r → cs = pat ++ r := by
  intro pat
  induction pat with
  | nil =>
    intro cs r h
    simp only [dropLit, Option.some.injEq] at h
    simp [h]
  | cons p ps ih =>
    intro cs r h
    cases cs with
    | nil => simp [dropLit] at h
    | cons c cs2 =>
      simp only [dropLit] at h
      split at h
      · rename_i hc
        rw [hc]
        simpa using ih cs2 r h
      · cases h

/-- A phase heading line is never also a prerequisite heading line: the two
patterns force different characters at position 4. -/
theorem phase_heading_not_prereq (line : String) (h : isPhaseHeading line = true) :
    isPrereqHeading line = false := by
  unfold isPhaseHeading at h
  cases hdl : dropLit "### Phase ".data line.data with
  | none => rw [hdl] at h; simp at h
  | some r =>
    have hpre := dropLit_eq_append _ _ _ hdl
    unfold isPrereqHeading pyStartsWith
    rw [hpre]
    have hd : ("### Phase ".data : List Char) =
        ['#', '#', '#', ' ', 'P', 'h', 'a', 's', 'e', ' '] := rfl
    have e1 : ("### 1. 环境准备".data : List Char) =
        ['#', '#', '#', ' ', '1', '.', ' ', '环', '境', '准', '备'] := rfl
    have e2 : ("### 2. 知识库准备".data : List Char) =
        ['#', '#', '#', ' ', '2', '.', ' ', '知', '识', '库', '准', '备'] := rfl
    have e3 : ("### 3. 测试集群准备".data : List Char) =
        ['#', '#', '#', ' ', '3', '.', ' ', '测', '试', '集', '群', '准', '备'] := rfl
    rw [hd, e1, e2, e3]
    simp [List.isPrefixOf]

theorem assignCommand_current_phase (s : ScanState) (cmd : String) :
    (assignCommand s cmd).current_phase = s.current_phase := by
  unfold assignCommand
  split
  · rfl
  · split <;> rfl

theorem assignCommand_prereq_none (s : ScanState) (cmd : String)
    (h : s.current_prerequisite = none) :
    (assignCommand s cmd).current_prerequisite = none := by
  unfold assignCommand
  rw [h]
  simp only [Option.isSome_none, Bool.and_false, Bool.false_eq_true, if_false]
  split <;> simp [h]

theorem attachCheckpoint_current_phase (s : ScanState) (cp : Checkpoint) :
    (attachCheckpoint s cp).current_phase = s.current_phase := by
  unfold attachCheckpoint
  split
  · rfl
  · split <;> rfl

theorem attachCheckpoint_prereq_none (s : ScanState) (cp : Checkpoint)
    (h : s.current_prerequisite = none) :
    (attachCheckpoint s cp).current_prerequisite = none := by
  unfold attachCheckpoint
  rw [h]
  simp only [Option.isSome_none, Bool.and_false, Bool.false_eq_true, if_false]
  split <;> simp [h]

theorem attachCheckpoint_prereq_command (s : ScanState) (cp : Checkpoint) :
    (attachCheckpoint s cp).current_prerequisite.map Prerequisite.command =
      s.current_prerequisite.map Prerequisite.command := by
  unfold attachCheckpoint
  split
  · cases hp : s.current_prerequisite <;> simp [hp]
  · split <;> rfl

theorem attachCheckpoint_test_command (s : ScanState) (cp : Checkpoint) :
    (attachCheckpoint s cp).current_test.map Test.command =
      s.current_test.map Test.command := by
  unfold attachCheckpoint
  split
  · rfl
  · cases hct : s.current_test <;> simp [hct]

theorem attachCheckpoint_test_attach (s : ScanState) (cp : Checkpoint) (t : Test)
    (hpre : s.in_prerequisite = false) (ht : s.current_test = some t) :
    (attachCheckpoint s cp).current_test =
      some { t with checkpoints := t.checkpoints ++ [cp] } := by
  unfold attachCheckpoint
  rw [hpre, ht]
  simp

theorem attachCheckpoint_drop (s : ScanState) (cp : Checkpoint)
    (hp : s.current_prerequisite = none) (ht : s.current_test = none) :
    attachCheckpoint s cp = s := by
  unfold attachCheckpoint
  rw [hp, ht]
  simp

theorem takeWhile_append_of_all {α : Type} (p : α → Bool) :
    ∀ (c : List α) (x : α) (after : List α), (∀ l ∈ c, p l = true) → p x = false →
      List.takeWhile p (c ++ x :: after) = c := by
  intro c
  induction c with
  | nil =>
    intro x after _ hx
    simp [List.takeWhile, hx]
  | cons a c2 ih =>
    intro x after hall hx
    have ha := hall a (List.mem_cons_self a c2)
    simp only [List.cons_append, List.takeWhile, ha]
    exact congrArg (List.cons a) (ih x after (fun l hl => hall l (List.mem_cons_of_mem a hl)) hx)

theorem drop_length_succ_append {α : Type} :
    ∀ (c : List α) (x : α) (after : List α), List.drop (c.length + 1) (c ++ x :: after) = after := by
  intro c
  induction c with
  | nil => intro x after; simp
  | cons a c2 ih => intro x after; simpa using ih x after

/-- C4: at most one of {current prerequisite, current phase} is open at any
scan position (the disjunction holds initially and is preserved by every
loop iteration), and a phase heading line unconditionally closes the open
prerequisite context — lines 53-56 run before any other consideration, even
while a fence is being collected or when the prerequisite would otherwise
have stayed open. -/
theorem C4_invariant :
    (initState.current_prerequisite = none ∨ initState.current_phase = none)
    ∧ (∀ (s : ScanState) (line : String) (rest : List String),
        s.current_prerequisite = none ∨ s.current_phase = none →
        ((step s line rest).1.current_prerequisite = none ∨
          (step s line rest).1.current_phase = none))
    ∧ (∀ (s : ScanState) (line : String) (rest : List String),
        isPhaseHeading line = true →
        (step s line rest).1.current_prerequisite = none ∧
          (step s line rest).1.in_prerequisite = false) := by
  refine ⟨Or.inl rfl, ?_, ?_⟩
  · intro s line rest hInv
    by_cases h1 : isPrereqHeading line = true
    · rw [step_prereq s line rest h1]
      exact Or.inr rfl
    · have h1' : isPrereqHeading line = false := by simpa using h1
      by_cases h2 : isPhaseHeading line = true
      · cases rest with
        | nil =>
          rw [step_phase_nil s line h1' h2]
          exact Or.inl rfl
        | cons next rest2 =>
          by_cases hg : pyStartsWith next "**目标**:" = true
          · rw [step_phase_goal s line next rest2 h1' h2 hg]
            exact Or.inl rfl
          · rw [step_phase_nogoal s line next rest2 h1' h2 (by simpa using hg)]
            exact Or.inl rfl
      · have h2' : isPhaseHeading line = false := by simpa using h2
        by_cases h3 : isTestHeading line = true
        · cases hph : s.current_phase with
          | none =>
            rw [step_test_none s line rest h1' h2' h3 hph]
            exact hInv
          | some ph =>
            rw [step_test_some s line rest ph h1' h2' h3 hph]
            rcases hInv with hl | hr
            · exact Or.inl hl
            · rw [hph] at hr
              cases hr
        · have h3' : isTestHeading line = false := by simpa using h3
          by_cases h4 : pyStrip line = "```bash"
          · rw [step_bash s line rest h1' h2' h3' h4]
            exact hInv
          · by_cases h5 : s.collecting_command = true
            · by_cases h6 : pyStrip line = "```"
              · rw [step_collect_close s line rest h1' h2' h3' h4 h5 h6]
                rcases hInv with hl | hr
                · exact Or.inl (assignCommand_prereq_none s _ hl)
                · exact Or.inr (by rw [assignCommand_current_phase]; exact hr)
              · rw [step_collect_acc s line rest h1' h2' h3' h4 h5 h6]
                exact hInv
            · have h5' : s.collecting_command = false := by simpa using h5
              by_cases h6 : pyStartsWith (pyStrip line) "- [ ]" = true
              · have hpres : ∀ cp, ((attachCheckpoint s cp).current_prerequisite = none ∨
                    (attachCheckpoint s cp).current_phase = none) := by
                  intro cp
                  rcases hInv with hl | hr
                  · exact Or.inl (attachCheckpoint_prereq_none s cp hl)
                  · exact Or.inr (by rw [attachCheckpoint_current_phase]; exact hr)
                cases rest with
                | nil =>
                  rw [step_checkbox_nil s line h1' h2' h3' h4 h5' h6]
                  exact hpres _
                | cons next rest2 =>
                  by_cases hb : pyStrip next = "```bash"
                  · rw [step_checkbox_fence s line next rest2 h1' h2' h3' h4 h5' h6 hb]
                    exact hpres _
                  · rw [step_checkbox_nofence s line next rest2 h1' h2' h3' h4 h5' h6 hb]
                    exact hpres _
              · have h6' : pyStartsWith (pyStrip line) "- [ ]" = false := by simpa using h6
                by_cases h7 : pyStrip line = "**检查输出**:"
                · rw [step_output s line rest h1' h2' h3' h4 h5' h6' h7]
                  exact hInv
                · rw [step_plain s line rest h1' h2' h3' h4 h5' h6' h7]
                  exact hInv
  · intro s line rest h2
    have h1' : isPrereqHeading line = false := phase_heading_not_prereq line h2
    cases rest with
    | nil =>
      rw [step_phase_nil s line h1' h2]
      exact ⟨rfl, rfl⟩
    | cons next rest2 =>
      by_cases hg : pyStartsWith next "**目标**:" = true
      · rw [step_phase_goal s line next rest2 h1' h2 hg]
        exact ⟨rfl, rfl⟩
      · rw [step_phase_nogoal s line next rest2 h1' h2 (by simpa using hg)]
        exact ⟨rfl, rfl⟩

/-- Witness for `C4_invariant` at a concrete state: a phase heading closes
the open prerequisite of `c3_state` even though a fence is still being
collected there. -/
theorem C4_invariant_witness :
    (step c3_state "### Phase 1: X" []).1.current_prerequisite = none
    ∧ (step c3_state "### Phase 1: X" []).1.in_prerequisite = false :=
  C4_invariant.2.2 c3_state "### Phase 1: X" [] (by decide)

/-- C5: a checkbox checkpoint line whose next line strips to the fence-open
token consumes the whole nested fenced block (lines 119-130): the checkpoint
command is the stripped join of the block's content lines, the enclosing
prerequisite's and test's `command` fields are untouched, the scanner's
remainder starts right after the block's closing line (so none of its lines
are reprocessed), and with an open test the checkpoint is appended to that
test. -/
theorem C5_checkpoint_fence (s : ScanState) (line fo close : String)
    (content after : List String)
    (h1 : isPrereqHeading line = false) (h2 : isPhaseHeading line = false)
    (h3 : isTestHeading line = false) (h4 : pyStrip line ≠ "```bash")
    (h5 : s.collecting_command = false)
    (h6 : pyStartsWith (pyStrip line) "- [ ]" = true)
    (hfo : pyStrip fo = "```bash")
    (hcontent : ∀ l ∈ content, pyStrip l ≠ "```")
    (hclose : pyStrip close = "```") :
    (step s line (fo :: (content ++ close :: after))).2 = after
    ∧ (step s line (fo :: (content ++ close :: after))).1 =
        attachCheckpoint s
          { text := pyStrip (pyReplace line "- [ ]" "")
            command := pyStrip (pyJoinNl content) }
    ∧ (step s line (fo :: (content ++ close :: after))).1.current_prerequisite.map
        Prerequisite.command = s.current_prerequisite.map Prerequisite.command
    ∧ (step s line (fo :: (content ++ close :: after))).1.current_test.map
        Test.command = s.current_test.map Test.command
    ∧ (∀ t, s.in_prerequisite = false → s.current_test = some t →
        (step s line (fo :: (content ++ close :: after))).1.current_test =
          some { t with checkpoints := t.checkpoints ++
            [{ text := pyStrip (pyReplace line "- [ ]" "")
               command := pyStrip (pyJoinNl content) }] }) := by
  have hTW : (content ++ close :: after).takeWhile (fun l => pyStrip l ≠ "```") = content := by
    refine takeWhile_append_of_all _ content close after ?_ ?_
    · intro l hl
      simpa using hcontent l hl
    · simpa using hclose
  rw [step_checkbox_fence s line fo (content ++ close :: after) h1 h2 h3 h4 h5 h6 hfo, hTW,
    drop_length_succ_append content close after]
  exact ⟨rfl, rfl, attachCheckpoint_prereq_command s _, attachCheckpoint_test_command s _,
    fun t hpre ht => attachCheckpoint_test_attach s _ t hpre ht⟩

/-- Witness for `C5_checkpoint_fence` at a concrete checkpoint with a
nested block, inside the open test of `c2_state`. -/
theorem C5_checkpoint_fence_witness :
    (step c2_state "- [ ] ok" ("```bash" :: (["ls -la"] ++ "```" :: ["tail"]))).2 = ["tail"]
    ∧ (step c2_state "- [ ] ok" ("```bash" :: (["ls -la"] ++ "```" :: ["tail"]))).1 =
        attachCheckpoint c2_state
          { text := pyStrip (pyReplace "- [ ] ok" "- [ ]" "")
            command := pyStrip (pyJoinNl ["ls -la"]) }
    ∧ (step c2_state "- [ ] ok" ("```bash" :: (["ls -la"] ++ "```" :: ["tail"]))).1.current_prerequisite.map
        Prerequisite.command = c2_state.current_prerequisite.map Prerequisite.command
    ∧ (step c2_state "- [ ] ok" ("```bash" :: (["ls -la"] ++ "```" :: ["tail"]))).1.current_test.map
        Test.command = c2_state.current_test.map Test.command
    ∧ (∀ t, c2_state.in_prerequisite = false → c2_state.current_test = some t →
        (step c2_state "- [ ] ok" ("```bash" :: (["ls -la"] ++ "```" :: ["tail"]))).1.current_test =
          some { t with checkpoints := t.checkpoints ++
            [{ text := pyStrip (pyReplace "- [ ] ok" "- [ ]" "")
               command := pyStrip (pyJoinNl ["ls -la"]) }] }) :=
  C5_checkpoint_fence c2_state "- [ ] ok" "```bash" "```" ["ls -la"] ["tail"]
    (by decide) (by decide) (by decide) (by decide) rfl (by decide) (by decide)
    (by decide) (by decide)

/-- C8: a checkbox line encountered while no prerequisite and no test is
open changes nothing in the state — the constructed checkpoint is silently
discarded (lines 132-135 have no else branch), no error is raised (the
embedding is a total function), and zero checkpoints are produced from the
line. -/
theorem C8_orphan_checkbox (s : ScanState) (line : String) (rest : List String)
    (h1 : isPrereqHeading line = false) (h2 : isPhaseHeading line = false)
    (h3 : isTestHeading line = false) (h4 : pyStrip line ≠ "```bash")
    (h5 : s.collecting_command = false)
    (h6 : pyStartsWith (pyStrip line) "- [ ]" = true)
    (hpre : s.current_prerequisite = none) (htest : s.current_test = none) :
    (step s line rest).1 = s := by
  cases rest with
  | nil =>
    rw [step_checkbox_nil s line h1 h2 h3 h4 h5 h6]
    exact attachCheckpoint_drop s _ hpre htest
  | cons next rest2 =>
    by_cases hb : pyStrip next = "```bash"
    · rw [step_checkbox_fence s line next rest2 h1 h2 h3 h4 h5 h6 hb]
      exact attachCheckpoint_drop s _ hpre htest
    · rw [step_checkbox_nofence s line next rest2 h1 h2 h3 h4 h5 h6 hb]
      exact attachCheckpoint_drop s _ hpre htest

/-- Witness for `C8_orphan_checkbox`: an orphan checkbox at the very start
of a document leaves the initial state unchanged. -/
theorem C8_orphan_checkbox_witness :
    (step initState "- [ ] orphan" []).1 = initState :=
  C8_orphan_checkbox initState "- [ ] orphan" []
    (by decide) (by decide) (by decide) (by decide) rfl (by decide) rfl rfl

/-- C9: every loop iteration makes strict progress — the lines remaining
after one `step` are strictly fewer than the lines at the start of the
iteration (the scan index strictly increases, including in the checkbox
lookahead and the nested fence scan), which is exactly why the fuel
`lines.length` of `scan` suffices and why `parse_markdown` is total: every
line access in the embedding is on the structurally available remainder, and
the function returns a (prerequisites, phases) pair for every input. -/
theorem C9_progress (s : ScanState) (line : String) (rest : List String) :
    ((step s line rest).2).length < (line :: rest).length := by
  have h := step_rest_length s line rest
  simp only [List.length_cons]
  omega

/-- The results record of Scenario C: a prefixed id string, a failure and a
duration. -/
def c6_records : List ResultRecord :=
  [{ id := some "test_1.1", result := some "failed", duration := some 12.5,
     log_file := none, checkpoints := none }]

/-- The Scenario B document, whose model contains exactly Test 1.1. -/
def scenarioB : String :=
  "### Phase 1: X\n**目标**: goal text\n#### Test 1.1: name\n```bash\ncmd1\n```\n- [ ] check\n```bash\ncmd2\n```"

/-- C6: the dotted id "1.1" is extracted from the prefixed id string
"test_1.1" (line 169), the Scenario B model's Test 1.1 is annotated with
result "failed" and duration 12.5 by the merge lookup (lines 744-749), and
the summary buckets (lines 218-221) count failed==1 and passed==0. -/
theorem C6_merge_scenario :
    load_test_results c6_records =
      [("1.1", { result := "failed", duration := 12.5, log_file := "", checkpoints := [] })]
    ∧ (parse_markdown scenarioB).2.map (fun ph => ph.tests.map Test.id) = [["1.1"]]
    ∧ (merge_results (load_test_results c6_records) (parse_markdown scenarioB).2).map
        (fun ap => ap.tests.map (fun a => (a.result, a.duration))) = [[("failed", (12.5 : ℚ))]]
    ∧ count_result (load_test_results c6_records) "failed" = 1
    ∧ count_result (load_test_results c6_records) "passed" = 0 :=
  ⟨rfl, rfl, rfl, rfl, rfl⟩

theorem annotate_test_strip (m : List (String × MappedResult)) (t : Test) :
    (annotate_test m t).test = t := by
  unfold annotate_test
  cases h : dictGet m t.id <;> simp [h]

/-- C7: the merge is a read-only annotation pass — stripping the
annotations recovers the parsed model unchanged (nothing in the model is
mutated), and hence merging the same results mapping a second time produces
exactly the same annotated structure (idempotence).  The results mapping is
not part of the output at all, so it is not modified either. -/
theorem C7_merge_pure (m : List (String × MappedResult)) (phases : List Phase) :
    strip_merge (merge_results m phases) = phases
    ∧ merge_results m (strip_merge (merge_results m phases)) = merge_results m phases := by
  have h1 : strip_merge (merge_results m phases) = phases := by
    unfold strip_merge merge_results
    rw [List.map_map]
    have : ∀ ph ∈ phases,
        ({ title := ph.title, description := ph.description,
           tests := (ph.tests.map (annotate_test m)).map (fun a => a.test) } : Phase) = ph := by
      intro ph _
      rw [List.map_map]
      have ht : ph.tests.map ((fun a => a.test) ∘ annotate_test m) = ph.tests.map id := by
        apply List.map_congr_left
        intro t _
        exact annotate_test_strip m t
      rw [ht, List.map_id]
    calc phases.map _ = phases.map id := List.map_congr_left this
      _ = phases := List.map_id phases
  exact ⟨h1, by rw [h1]⟩

/-- All tests stored in the phases part of the state: the tests of every
closed phase plus the tests of the currently open phase. -/
def allTests (s : ScanState) : List Test :=
  (s.phases.map Phase.tests).flatten ++
    (match s.current_phase with
      | some ph => ph.tests
      | none => [])

theorem allTests_closePhase (s : ScanState) (t : Test) (h : t ∈ allTests s) :
    t ∈ ((closePhase s).map Phase.tests).flatten := by
  unfold allTests at h
  unfold closePhase
  cases hph : s.current_phase with
  | none =>
    rw [hph] at h
    simpa using h
  | some ph =>
    rw [hph] at h
    simp only [List.map_append, List.flatten_append, List.map_cons, List.map_nil,
      List.flatten_cons, List.flatten_nil, List.append_nil]
    rcases List.mem_append.mp h with hj | hcur
    · exact List.mem_append.mpr (Or.inl hj)
    · exact List.mem_append.mpr (Or.inr hcur)

theorem allTests_closePhaseWithTest (s : ScanState) (t : Test) (h : t ∈ allTests s) :
    t ∈ ((closePhaseWithTest s).map Phase.tests).flatten := by
  unfold allTests at h
  unfold closePhaseWithTest
  cases hph : s.current_phase with
  | none =>
    rw [hph] at h
    simpa using h
  | some ph =>
    rw [hph] at h
    simp only [List.map_append, List.flatten_append, List.map_cons, List.map_nil,
      List.flatten_cons, List.flatten_nil, List.append_nil]
    rcases List.mem_append.mp h with hj | hcur
    · exact List.mem_append.mpr (Or.inl hj)
    · exact List.mem_append.mpr (Or.inr (List.mem_append.mpr (Or.inl hcur)))

/-- Preservation of the phase-heading branch used by the C10 induction. -/
theorem phaseState_pres (s : ScanState) (line desc : String)
    (hc : s.collecting_command = true) :
    (phaseState s line desc).collecting_command = true
    ∧ (∀ p, s.current_prerequisite = some p ∨ p ∈ s.prerequisites →
        ((phaseState s line desc).current_prerequisite = some p ∨
          p ∈ (phaseState s line desc).prerequisites))
    ∧ (∀ t, s.current_test = some t ∨ t ∈ allTests s →
        ((phaseState s line desc).current_test = some t ∨
          t ∈ allTests (phaseState s line desc))) := by
  refine ⟨hc, ?_, ?_⟩
  · intro p hp
    right
    show p ∈ flushPrereq s
    unfold flushPrereq
    rcases hp with hl | hr
    · rw [hl]
      simp
    · exact List.mem_append.mpr (Or.inl hr)
  · intro t ht
    rcases ht with hl | hr
    · exact Or.inl hl
    · right
      show t ∈ allTests (phaseState s line desc)
      unfold allTests phaseState
      simpa using allTests_closePhaseWithTest s t hr

/-- One-iteration preservation for C10: while a fence is open and the line
does not close it, the iteration keeps the fence open and keeps every
already-existing prerequisite record and test record intact (either still
current, or stored verbatim in its list). -/
theorem step_collecting_pres (s : ScanState) (line : String) (rest : List String)
    (hc : s.collecting_command = true) (hnc : pyStrip line ≠ "```") :
    ((step s line rest).1.collecting_command = true)
    ∧ (∀ p, s.current_prerequisite = some p ∨ p ∈ s.prerequisites →
        ((step s line rest).1.current_prerequisite = some p ∨
          p ∈ (step s line rest).1.prerequisites))
    ∧ (∀ t, s.current_test = some t ∨ t ∈ allTests s →
        ((step s line rest).1.current_test = some t ∨
          t ∈ allTests (step s line rest).1)) := by
  by_cases h1 : isPrereqHeading line = true
  · rw [step_prereq s line rest h1]
    refine ⟨hc, ?_, ?_⟩
    · intro p hp
      right
      show p ∈ flushPrereq s
      unfold flushPrereq
      rcases hp with hl | hr
      · rw [hl]
        simp
      · exact List.mem_append.mpr (Or.inl hr)
    · intro t ht
      rcases ht with hl | hr
      · exact Or.inl hl
      · right
        show t ∈ ((closePhase s).map Phase.tests).flatten ++ []
        rw [List.append_nil]
        exact allTests_closePhase s t hr
  · have h1' : isPrereqHeading line = false := by simpa using h1
    by_cases h2 : isPhaseHeading line = true
    · cases rest with
      | nil =>
        rw [step_phase_nil s line h1' h2]
        exact phaseState_pres s line "" hc
      | cons next rest2 =>
        by_cases hg : pyStartsWith next "**目标**:" = true
        · rw [step_phase_goal s line next rest2 h1' h2 hg]
          exact phaseState_pres s line _ hc
        · rw [step_phase_nogoal s line next rest2 h1' h2 (by simpa using hg)]
          exact phaseState_pres s line "" hc
    · have h2' : isPhaseHeading line = false := by simpa using h2
      by_cases h3 : isTestHeading line = true
      · cases hph : s.current_phase with
        | none =>
          rw [step_test_none s line rest h1' h2' h3 hph]
          exact ⟨hc, fun p hp => hp, fun t ht => ht⟩
        | some ph =>
          rw [step_test_some s line rest ph h1' h2' h3 hph]
          refine ⟨hc, fun p hp => hp, ?_⟩
          intro t ht
          right
          show t ∈ (s.phases.map Phase.tests).flatten ++ (ph.tests ++ s.current_test.toList)
          rcases ht with hl | hr
          · rw [hl]
            simp
          · unfold allTests at hr
            rw [hph] at hr
            rcases List.mem_append.mp hr with hj | hcur
            · exact List.mem_append.mpr (Or.inl hj)
            · exact List.mem_append.mpr (Or.inr (List.mem_append.mpr (Or.inl hcur)))
      · have h3' : isTestHeading line = false := by simpa using h3
        by_cases h4 : pyStrip line = "```bash"
        · rw [step_bash s line rest h1' h2' h3' h4]
          exact ⟨rfl, fun p hp => hp, fun t ht => ht⟩
        · rw [step_collect_acc s line rest h1' h2' h3' h4 hc hnc]
          exact ⟨hc, fun p hp => hp, fun t ht => ht⟩

/-- Scan-level preservation for C10, by strong induction on the fuel bound. -/
theorem scan_collecting_pres : ∀ (n : Nat) (lines : List String) (s : ScanState),
    lines.length ≤ n → s.collecting_command = true → (∀ l ∈ lines, pyStrip l ≠ "```") →
    ((scan s lines).collecting_command = true)
    ∧ (∀ p, s.current_prerequisite = some p ∨ p ∈ s.prerequisites →
        ((scan s lines).current_prerequisite = some p ∨ p ∈ (scan s lines).prerequisites))
    ∧ (∀ t, s.current_test = some t ∨ t ∈ allTests s →
        ((scan s lines).current_test = some t ∨ t ∈ allTests (scan s lines))) := by
  intro n
  induction n with
  | zero =>
    intro lines s hlen hc _
    have : lines = [] := List.eq_nil_of_length_eq_zero (Nat.le_zero.mp hlen)
    subst this
    rw [scan_nil]
    exact ⟨hc, fun p hp => hp, fun t ht => ht⟩
  | succ n ih =>
    intro lines s hlen hc hlines
    cases lines with
    | nil =>
      rw [scan_nil]
      exact ⟨hc, fun p hp => hp, fun t ht => ht⟩
    | cons l r =>
      rw [scan_cons]
      have hstep := step_collecting_pres s l r hc (hlines l (List.mem_cons_self l r))
      obtain ⟨k, hk⟩ := step_rest_drop s l r
      have hsub : ∀ l2 ∈ (step s l r).2, pyStrip l2 ≠ "```" := by
        intro l2 hl2
        rw [hk] at hl2
        exact hlines l2 (List.mem_cons_of_mem l (List.drop_subset k r hl2))
      have hlen2 : ((step s l r).2).length ≤ n := by
        have := step_rest_length s l r
        simp only [List.length_cons, Nat.succ_le_succ_iff] at hlen
        omega
      have ihres := ih (step s l r).2 (step s l r).1 hlen2 hstep.1 hsub
      exact ⟨ihres.1,
        fun p hp => ihres.2.1 p (hstep.2.1 p hp),
        fun t ht => ihres.2.2 t (hstep.2.2 t ht)⟩

/-- C10: if a fence opened by a fence-open token is never closed before the
end of the input, the fence is still open when the document ends — so the
accumulated lines are discarded (the command assignment happens only on the
fence-close branch, lines 99-103, and the trailing push of lines 146-150
touches no command) — and every prerequisite or test record that existed
when the fence opened survives verbatim (still current, or stored in its
list), so in particular the command field of every open container keeps the
value it had before the fence opened. -/
theorem C10_unclosed_fence (s : ScanState) (content : List String)
    (hcontent : ∀ l ∈ content, pyStrip l ≠ "```") :
    ((scan s ("```bash" :: content)).collecting_command = true)
    ∧ (∀ p, s.current_prerequisite = some p ∨ p ∈ s.prerequisites →
        ((scan s ("```bash" :: content)).current_prerequisite = some p ∨
          p ∈ (scan s ("```bash" :: content)).prerequisites))
    ∧ (∀ t, s.current_test = some t ∨ t ∈ allTests s →
        ((scan s ("```bash" :: content)).current_test = some t ∨
          t ∈ allTests (scan s ("```bash" :: content)))) := by
  rw [scan_cons, step_bash s "```bash" content (by decide) (by decide) (by decide) (by decide)]
  exact scan_collecting_pres content.length content _ le_rfl rfl hcontent

/-- Witness for `C10_unclosed_fence`: an unclosed fence after the open test
of `c2_state` leaves the fence open and the test record intact. -/
theorem C10_unclosed_fence_witness :
    ((scan c2_state ("```bash" :: ["echo x"])).collecting_command = true)
    ∧ (∀ p, c2_state.current_prerequisite = some p ∨ p ∈ c2_state.prerequisites →
        ((scan c2_state ("```bash" :: ["echo x"])).current_prerequisite = some p ∨
          p ∈ (scan c2_state ("```bash" :: ["echo x"])).prerequisites))
    ∧ (∀ t, c2_state.current_test = some t ∨ t ∈ allTests c2_state →
        ((scan c2_state ("```bash" :: ["echo x"])).current_test = some t ∨
          t ∈ allTests (scan c2_state ("```bash" :: ["echo x"])))) :=
  C10_unclosed_fence c2_state ["echo x"] (by decide)

end TestPlan
